import Mathlib

/-
Verification of the dreamy media-retrieval proxy (src/app/main.py).

The Python module is shallowly embedded: dictionaries from the metadata
service become a small Python-value type, the metadata service and the
network become explicit oracles, and each relevant function of main.py is
translated into an executable Lean definition that returns its result
together with the externally observable events (service calls, connection
attempts, resource closures).
-/

namespace Dreamy

/-- Model of the Python values that flow through main.py: the info objects
returned by the metadata service are dictionaries whose entries may be
None, booleans, integers, strings, lists or nested dictionaries. -/
inductive PyVal where
  | null
  | pyBool (b : Bool)
  | int (n : Int)
  | str (s : String)
  | list (xs : List PyVal)
  | dict (fields : List (String × PyVal))

/-- Python truthiness: None, False, 0, empty string, empty list and empty
dict are falsy, everything else is truthy. -/
def pyTruthy : PyVal → Bool
  | .null => false
  | .pyBool b => b
  | .int n => n != 0
  | .str s => !s.isEmpty
  | .list xs => !xs.isEmpty
  | .dict fs => !fs.isEmpty

/-- Model of dict.get(key): the value stored under the first occurrence of
the key, or None when the key is absent or the value is not a dict. -/
def pyGet (v : PyVal) (key : String) : PyVal :=
  match v with
  | .dict fs => go fs
  | _ => .null
where
  go : List (String × PyVal) → PyVal
    | [] => .null
    | (k, x) :: rest => if k == key then x else go rest

/-- Model of Python str() restricted to scalars; the textual repr of
container values is abstracted by a fixed placeholder (main.py only ever
applies str() to header names and values, which are strings in practice). -/
def pyStr : PyVal → String
  | .null => "None"
  | .pyBool b => if b then "True" else "False"
  | .int n => toString n
  | .str s => s
  | .list _ => "<list repr abstracted>"
  | .dict _ => "<dict repr abstracted>"

/-- The characters Python's str.isspace and the regex class \s recognise
for str patterns (used by re.sub and str.strip in sanitize_filename). -/
def isPySpace (c : Char) : Bool :=
  c == ' ' || c == '\t' || c == '\n' || c == '\r' ||
  c.toNat == 11 || c.toNat == 12 ||
  (28 ≤ c.toNat && c.toNat ≤ 31) ||
  c.toNat == 133 || c.toNat == 160 || c.toNat == 5760 ||
  (8192 ≤ c.toNat && c.toNat ≤ 8202) ||
  c.toNat == 8232 || c.toNat == 8233 || c.toNat == 8239 ||
  c.toNat == 8287 || c.toNat == 12288

/-- INVALID_FILENAME_CHARS from main.py line 44. -/
def invalidFilenameChars : List Char := ['<', '>', ':', '"', '/', '\\', '|', '?', '*']

/-- Replace every maximal run of whitespace by a single space, as
re.sub applied with pattern \s+ and replacement " " does; the Boolean
argument records whether the previous character belonged to a run. -/
def collapseWsAux : Bool → List Char → List Char
  | _, [] => []
  | prevSpace, c :: cs =>
    if isPySpace c then
      if prevSpace then collapseWsAux true cs
      else ' ' :: collapseWsAux true cs
    else c :: collapseWsAux false cs

/-- re.sub collapsing each whitespace run to a single space. -/
def collapseWs (cs : List Char) : List Char := collapseWsAux false cs

/-- Strip characters satisfying p from both ends, as str.strip does. -/
def stripEnds (p : Char → Bool) (cs : List Char) : List Char :=
  ((cs.dropWhile p).reverse.dropWhile p).reverse

/-- Python str.strip() on a whole string (whitespace at both ends). -/
def pyStripStr (s : String) : String := String.mk (stripEnds isPySpace s.data)

/-- Python `a or default` for strings: a when non-empty, else the default. -/
def strOrDefault (s d : String) : String := if s.isEmpty then d else s

/-- sanitize_filename from main.py lines 110-130: replace control
characters (code point below 32) and invalid filename characters by an
underscore, collapse whitespace runs, strip whitespace from the ends, then
strip dots and underscores from the ends, turn remaining spaces into
underscores, substitute "download" for an empty result, truncate to 150
characters and append the extension. -/
def sanitize_filename (title : String) (extension : String) : String :=
  let cleaned := title.data.map fun c =>
    if c.toNat < 32 || invalidFilenameChars.contains c then '_' else c
  let collapsed := collapseWs cleaned
  let wsStripped := stripEnds isPySpace collapsed
  let dotStripped := stripEnds (fun c => c == '.' || c == '_') wsStripped
  let underscored := dotStripped.map fun c => if c == ' ' then '_' else c
  let base := if underscored.isEmpty then "download".data else underscored
  String.mk (base.take 150) ++ "." ++ extension

/-- Failures raised by the embedded code: fastapi HTTPException with a
status and a detail message, the RuntimeError raised mid-stream by the
transcode iterator, and exceptions that escape uncaught (a yt_dlp
DownloadError or any other exception with no surrounding handler). -/
inductive PyFailure where
  | httpException (status : Nat) (detail : String)
  | runtimeError (msg : String)
  | unhandledDownloadError (msg : String)
  | unhandledOther
deriving DecidableEq

/-- Outcome of one extract_info call on the metadata service: an info
object, a yt_dlp DownloadError carrying str(exc), or any other exception. -/
inductive YdlResult where
  | ok (info : PyVal)
  | downloadError (msg : String)
  | otherError

/-- The value info.get("requested_downloads") or info.get("requested_formats")
computed at main.py line 139, with Python or-semantics. -/
def rawCandidates (info : PyVal) : PyVal :=
  if pyTruthy (pyGet info "requested_downloads") then pyGet info "requested_downloads"
  else pyGet info "requested_formats"

/-- The private selection helper from main.py lines 138-145: a non-empty
candidate list yields its sole element when it is the only one and is a
dict, otherwise nothing; without a non-empty candidate list the info
object itself is the descriptor when its url entry is a string. -/
def select_single_stream (info : PyVal) : Option PyVal :=
  match rawCandidates info with
  | .list (first :: rest) =>
    match rest, first with
    | [], .dict fs => some (.dict fs)
    | _, _ => Option.none
  | _ =>
    match pyGet info "url" with
    | .str _ => some info
    | _ => Option.none

/-- The resolver from main.py lines 261-285, with the metadata service as
an oracle indexed by call number (0 = primary call, 1 = fallback call).
Returns the result together with the list of selectors the service was
invoked with, in order.  The primary call sits inside a try/except that
maps DownloadError to HTTPException 400 with the stripped message and any
other exception to HTTPException 500; the fallback call at lines 278-279
has no handler, so its exceptions escape unhandled. -/
def extract_stream_info (svc : Nat → String → YdlResult) (format_selector : String)
    (fallback_selector : Option String) :
    Except PyFailure (PyVal × PyVal) × List String :=
  match svc 0 format_selector with
  | .downloadError msg =>
    (.error (.httpException 400 (strOrDefault (pyStripStr msg) "Unable to resolve media stream")),
     [format_selector])
  | .otherError =>
    (.error (.httpException 500 "Failed to resolve media stream"), [format_selector])
  | .ok info =>
    match select_single_stream info with
    | some stream => (.ok (info, stream), [format_selector])
    | Option.none =>
      match fallback_selector with
      | Option.none =>
        (.error (.httpException 500 "Unable to identify a direct media stream"), [format_selector])
      | some fb =>
        match svc 1 fb with
        | .downloadError msg => (.error (.unhandledDownloadError msg), [format_selector, fb])
        | .otherError => (.error .unhandledOther, [format_selector, fb])
        | .ok info2 =>
          match select_single_stream info2 with
          | some stream => (.ok (info2, stream), [format_selector, fb])
          | Option.none =>
            (.error (.httpException 500 "Unable to identify a direct media stream"),
             [format_selector, fb])

/-- Characters urllib.parse accepts inside a URL scheme. -/
def isSchemeChar (c : Char) : Bool :=
  c.isAlphanum || c == '+' || c == '-' || c == '.'

/-- The scheme urlparse extracts: the lowercased text before the first
colon, provided that text is non-empty, starts with an ASCII letter and
consists of scheme characters; otherwise the empty string. -/
def urlScheme (url : String) : String :=
  let cs := url.data
  match cs.findIdx? (· == ':') with
  | Option.none => ""
  | some i =>
    if 0 < i then
      let pre := cs.take i
      if (match cs.head? with
          | some c => c.isAlpha
          | Option.none => false) && pre.all isSchemeChar
      then String.mk (pre.map Char.toLower)
      else ""
    else ""

/-- The scheme gate from main.py lines 154-157: any URL whose parsed
scheme is not http or https is rejected with HTTPException 400. -/
def ensure_http_scheme (url : String) : Except PyFailure Unit :=
  if urlScheme url == "http" || urlScheme url == "https" then .ok ()
  else .error (.httpException 400 "Unsupported media URL scheme")

/-- What urllib.request.urlopen does for a given URL and header list: the
connection succeeds, fails with an HTTPError carrying a status code and a
reason (the empty string standing for an absent reason), or fails with a
lower-level URLError. -/
inductive NetResult where
  | ok
  | httpError (code : Nat) (reason : String)
  | urlError

/-- Observable outcome of setting up _iter_http_chunks (main.py lines
160-175): the result and the URLs a connection was attempted against. -/
structure HttpOpenOutcome where
  result : Except PyFailure Unit
  connects : List String

/-- Setup phase of _iter_http_chunks: scheme gate first, then one
connection attempt whose HTTPError is re-raised with its code and reason
and whose URLError becomes a generic 500. -/
def iter_http_chunks (net : String → List (String × String) → NetResult)
    (download_url : String) (headers : List (String × String)) : HttpOpenOutcome :=
  match ensure_http_scheme download_url with
  | .error e => ⟨.error e, []⟩
  | .ok _ =>
    match net download_url headers with
    | .ok => ⟨.ok (), [download_url]⟩
    | .httpError code reason =>
      ⟨.error (.httpException code (strOrDefault reason "Media request failed")), [download_url]⟩
    | .urlError => ⟨.error (.httpException 500 "Unable to retrieve media stream"), [download_url]⟩

/-- Environment of _transcode_to_mp3: the network, the result of
shutil.which("ffmpeg") inside resolve_ffmpeg, whether subprocess.Popen
raises FileNotFoundError, and whether the three subprocess pipes are all
present. -/
structure FfmpegEnv where
  net : String → List (String × String) → NetResult
  whichFfmpeg : Option String
  popenRaisesFnf : Bool
  pipesOk : Bool

/-- Observable outcome of the setup phase of _transcode_to_mp3 (main.py
lines 178-222, before the feeder thread and iterator are produced). -/
structure TranscodeSetup where
  result : Except PyFailure Unit
  connects : List String
  sourceOpened : Bool
  sourceClosed : Bool
  processKilled : Bool

/-- Setup phase of _transcode_to_mp3, translated line by line: scheme
gate; urlopen with the same two error mappings as the passthrough path;
resolve_ffmpeg, which raises HTTPException 500 when shutil.which finds no
executable (main.py lines 79-84) with no handler closing the source; the
Popen call whose FileNotFoundError handler does close the source; and the
pipe check that kills the process and closes the source on failure. -/
def transcode_to_mp3_setup (env : FfmpegEnv) (download_url : String)
    (headers : List (String × String)) : TranscodeSetup :=
  match ensure_http_scheme download_url with
  | .error e => ⟨.error e, [], false, false, false⟩
  | .ok _ =>
    match env.net download_url headers with
    | .httpError code reason =>
      ⟨.error (.httpException code (strOrDefault reason "Audio request failed")),
       [download_url], false, false, false⟩
    | .urlError =>
      ⟨.error (.httpException 500 "Unable to retrieve audio stream"),
       [download_url], false, false, false⟩
    | .ok =>
      match env.whichFfmpeg with
      | Option.none =>
        ⟨.error (.httpException 500 "ffmpeg is not available"),
         [download_url], true, false, false⟩
      | some _ =>
        if env.popenRaisesFnf then
          ⟨.error (.httpException 500 "ffmpeg is not available"),
           [download_url], true, true, false⟩
        else if !env.pipesOk then
          ⟨.error (.httpException 500 "Unable to start audio encoder"),
           [download_url], true, true, true⟩
        else ⟨.ok (), [download_url], true, false, false⟩

/-- What the transcoding subprocess did on a run that the reader drains to
the end: the chunks its standard output delivered (as returned by the
successive read calls, without the final empty read), the text captured on
its diagnostic channel, and its exit code. -/
structure ProcObservation where
  stdoutChunks : List (List Nat)
  stderrText : String
  returncode : Int

/-- Events the caller-facing transcode iterator performs, in order. -/
inductive TEvent where
  | yields (chunk : List Nat)
  | joinFeeder
  | waitProcess
  | raises (e : PyFailure)
  | closeStdout
  | closeStderr
  | kill
deriving DecidableEq

/-- The iterator body of _transcode_to_mp3 (main.py lines 242-258) on a
run drained to exhaustion, as its ordered event trace: yield every stdout
chunk, join the feeder, wait for the subprocess, raise RuntimeError when
the exit code is non-zero with the stripped diagnostic text or the generic
message, then close stdout and stderr in the finally block; after a
completed wait the process is no longer running, so the defensive kill
branch is not taken. -/
def transcode_iterator_events (p : ProcObservation) : List TEvent :=
  (p.stdoutChunks.map TEvent.yields) ++ [TEvent.joinFeeder, TEvent.waitProcess] ++
  (if p.returncode != 0 then
     [TEvent.raises (.runtimeError (strOrDefault (pyStripStr p.stderrText)
        ("ffmpeg exited with code " ++ toString p.returncode)))]
   else []) ++
  [TEvent.closeStdout, TEvent.closeStderr]

/-- _normalize_headers from main.py lines 148-151 applied to the optional
mapping the prepare functions chose: None and the empty dict are falsy and
give the empty mapping, otherwise each entry is rendered through str(). -/
def normalize_headers (m : Option PyVal) : List (String × String) :=
  match m with
  | Option.none => []
  | some v =>
    match v with
    | .dict [] => []
    | .dict fs => fs.map fun kv => (kv.1, pyStr kv.2)
    | _ => []

/-- Header choice of prepare_video_stream (main.py lines 294-300): the
descriptor-level http_headers when it is a Mapping, else the info-level
http_headers when it is a Mapping, else None, then normalized. -/
def prepare_video_stream_headers (info stream : PyVal) : List (String × String) :=
  match pyGet stream "http_headers" with
  | .dict fs => normalize_headers (some (.dict fs))
  | _ =>
    match pyGet info "http_headers" with
    | .dict fs => normalize_headers (some (.dict fs))
    | _ => normalize_headers Option.none

/-- Header choice of prepare_mp3_stream (main.py lines 312-318), the same
chain as the video path. -/
def prepare_mp3_stream_headers (info stream : PyVal) : List (String × String) :=
  match pyGet stream "http_headers" with
  | .dict fs => normalize_headers (some (.dict fs))
  | _ =>
    match pyGet info "http_headers" with
    | .dict fs => normalize_headers (some (.dict fs))
    | _ => normalize_headers Option.none

/-- Whether the info object offers a non-empty candidate list. -/
def hasCandidates (info : PyVal) : Bool :=
  match rawCandidates info with
  | .list (_ :: _) => true
  | _ => false

/-- Whether the top-level url entry of the info object is a string. -/
def topUrlIsStr (info : PyVal) : Bool :=
  match pyGet info "url" with
  | .str _ => true
  | _ => false

/-- Whether selection falls through to considering the top-level info
object itself (the branch at main.py line 145). -/
def usesTopLevel (info : PyVal) : Bool :=
  match rawCandidates info with
  | .list (_ :: _) => false
  | _ => true

/-- Whether a value is absent (None) or a list. -/
def isNullOrList : PyVal → Bool
  | .null => true
  | .list _ => true
  | _ => false

/-- Whether a value is a dict (a Mapping). -/
def isDictVal : PyVal → Bool
  | .dict _ => true
  | _ => false

/-- The sanitization pipeline exactly as the claim words it: replace
control and invalid characters by underscores, collapse whitespace runs to
single spaces, trim leading and trailing dots, underscores and spaces in
one pass, replace remaining spaces by underscores, truncate to 150
characters, substitute "download" for an empty result and append the
extension. -/
def sanitizeFilenameClaim (title : String) (extension : String) : String :=
  let cleaned := title.data.map fun c =>
    if c.toNat < 32 || invalidFilenameChars.contains c then '_' else c
  let collapsed := collapseWs cleaned
  let trimmed := stripEnds (fun c => c == '.' || c == '_' || c == ' ') collapsed
  let underscored := trimmed.map fun c => if c == ' ' then '_' else c
  let base := if underscored.isEmpty then "download".data else underscored
  String.mk (base.take 150) ++ "." ++ extension

/-- The sanitization pipeline as amended: after collapsing whitespace runs
the ends are trimmed of spaces first, and only then of dots and
underscores, so a space uncovered by the dot-and-underscore trim survives
and later becomes an underscore. -/
def sanitizeFilenameAmended (title : String) (extension : String) : String :=
  let cleaned := title.data.map fun c =>
    if c.toNat < 32 || invalidFilenameChars.contains c then '_' else c
  let collapsed := collapseWs cleaned
  let spaceStripped := stripEnds (fun c => c == ' ') collapsed
  let dotStripped := stripEnds (fun c => c == '.' || c == '_') spaceStripped
  let underscored := dotStripped.map fun c => if c == ' ' then '_' else c
  let base := if underscored.isEmpty then "download".data else underscored
  String.mk (base.take 150) ++ "." ++ extension

/-
Helper lemmas shared by the claim theorems.
-/

/-- dropWhile only depends on the predicate's values on the list. -/
theorem dropWhile_congr_of_mem {p q : Char → Bool} :
    ∀ (l : List Char), (∀ c ∈ l, p c = q c) → l.dropWhile p = l.dropWhile q
  | [], _ => rfl
  | c :: cs, h => by
    simp only [List.dropWhile]
    rw [h c (List.mem_cons_self c cs)]
    cases q c with
    | true => exact dropWhile_congr_of_mem cs fun x hx => h x (List.mem_cons_of_mem c hx)
    | false => rfl

/-- stripEnds only depends on the predicate's values on the list. -/
theorem stripEnds_congr {p q : Char → Bool} (l : List Char)
    (h : ∀ c ∈ l, p c = q c) : stripEnds p l = stripEnds q l := by
  unfold stripEnds
  rw [dropWhile_congr_of_mem l h]
  have h2 : ∀ c ∈ (l.dropWhile q).reverse, p c = q c := fun c hc =>
    h c ((l.dropWhile_sublist q).subset (List.mem_reverse.mp hc))
  rw [dropWhile_congr_of_mem _ h2]

/-- Every character in the output of the whitespace collapse is either the
plain space or a non-whitespace character. -/
theorem isPySpace_eq_of_mem_collapseWsAux :
    ∀ (b : Bool) (cs : List Char) (c : Char),
      c ∈ collapseWsAux b cs → isPySpace c = (c == ' ') := by
  intro b cs
  induction cs generalizing b with
  | nil => intro c h; cases h
  | cons x xs ih =>
    intro c h
    simp only [collapseWsAux] at h
    by_cases hx : isPySpace x
    · rw [if_pos hx] at h
      cases b with
      | true => exact ih true c (by simpa using h)
      | false =>
        rw [if_neg (by simp)] at h
        rcases List.mem_cons.mp h with h1 | h1
        · subst h1; rfl
        · exact ih true c h1
    · rw [if_neg hx] at h
      rcases List.mem_cons.mp h with h1 | h1
      · subst h1
        have hne : (c == ' ') = false := by
          cases hcs : c == ' ' with
          | false => rfl
          | true =>
            have : c = ' ' := by simpa using hcs
            subst this
            exact absurd rfl hx
        rw [hne]
        simpa using hx
      · exact ih false c h1

/-- After collapsing whitespace runs, stripping whitespace from the ends
is the same as stripping plain spaces. -/
theorem stripEnds_space_collapseWs (cs : List Char) :
    stripEnds isPySpace (collapseWs cs) = stripEnds (fun c => c == ' ') (collapseWs cs) :=
  stripEnds_congr _ fun c hc => isPySpace_eq_of_mem_collapseWsAux false cs c hc

/-
C8 — filename sanitization.
-/

/-- C8 counterexample: for the title ". a" the code first strips
whitespace from the ends and only then dots and underscores, so the space
uncovered behind the leading dot survives and becomes an underscore; the
claimed pipeline, which trims dots, underscores and spaces together,
produces "a.mp4" while the code produces "_a.mp4". -/
theorem c8_sanitize_counterexample :
    sanitize_filename ". a" "mp4" = "_a.mp4" ∧
    sanitizeFilenameClaim ". a" "mp4" = "a.mp4" ∧
    sanitize_filename ". a" "mp4" ≠ sanitizeFilenameClaim ". a" "mp4" := by
  refine ⟨by decide, by decide, by decide⟩

/-- C8 (amended): sanitization replaces each character of code point
below 32 and each character in the invalid set by an underscore, collapses
whitespace runs to a single space, trims leading and trailing spaces, then
trims leading and trailing dots and underscores (a space uncovered by this
second trim survives), replaces remaining spaces with underscores,
substitutes "download" for an empty result, truncates to 150 characters
and appends a dot and the extension. -/
theorem c8_sanitize_amended (title extension : String) :
    sanitize_filename title extension = sanitizeFilenameAmended title extension := by
  simp only [sanitize_filename, sanitizeFilenameAmended, collapseWs]
  rw [← collapseWs, stripEnds_space_collapseWs]

/-
C1 — scheme gate before any connection attempt.
-/

/-- C1: for every download URL whose parsed scheme is neither http nor
https, both the passthrough path and the transcode path fail with the
client-error HTTPException 400 "Unsupported media URL scheme" and attempt
no network connection, whatever the network, the environment and the
headers are — in particular for any URL handed back by the metadata
service. -/
theorem c1_scheme_gate (download_url : String) (headers : List (String × String))
    (net : String → List (String × String) → NetResult) (env : FfmpegEnv)
    (h1 : urlScheme download_url ≠ "http") (h2 : urlScheme download_url ≠ "https") :
    iter_http_chunks net download_url headers =
      ⟨.error (.httpException 400 "Unsupported media URL scheme"), []⟩ ∧
    transcode_to_mp3_setup env download_url headers =
      ⟨.error (.httpException 400 "Unsupported media URL scheme"), [], false, false, false⟩ := by
  have hcond : (urlScheme download_url == "http" || urlScheme download_url == "https") = false := by
    simp [h1, h2]
  have hgate : ensure_http_scheme download_url =
      .error (.httpException 400 "Unsupported media URL scheme") := by
    simp [ensure_http_scheme, hcond]
  constructor
  · simp [iter_http_chunks, hgate]
  · simp [transcode_to_mp3_setup, hgate]

/-- C1 witness: a local-file URL, as in the spec's scenario. -/
theorem c1_scheme_gate_witness :
    urlScheme "file:///etc/passwd" ≠ "http" ∧ urlScheme "file:///etc/passwd" ≠ "https" ∧
    iter_http_chunks (fun _ _ => NetResult.ok) "file:///etc/passwd" [] =
      ⟨.error (.httpException 400 "Unsupported media URL scheme"), []⟩ ∧
    transcode_to_mp3_setup ⟨fun _ _ => NetResult.ok, some "/usr/bin/ffmpeg", false, true⟩
        "file:///etc/passwd" [] =
      ⟨.error (.httpException 400 "Unsupported media URL scheme"), [], false, false, false⟩ := by
  have h := c1_scheme_gate "file:///etc/passwd" [] (fun _ _ => NetResult.ok)
    ⟨fun _ _ => NetResult.ok, some "/usr/bin/ffmpeg", false, true⟩ (by decide) (by decide)
  exact ⟨by decide, by decide, h.1, h.2⟩

/-
C6 — missing codec executable.
-/

/-- C6: when shutil.which locates no ffmpeg executable, the transcode
setup fails with the distinguishable server error "ffmpeg is not
available", but the already-opened HTTP byte source is left open when the
failure propagates: resolve_ffmpeg raises after urlopen succeeded and no
handler on that path closes the source (only the Popen FileNotFoundError
handler does).  This contradicts the claimed release of the source. -/
theorem c6_ffmpeg_missing_leaves_source_open :
    (transcode_to_mp3_setup ⟨fun _ _ => NetResult.ok, Option.none, false, true⟩
        "http://media.example/audio" []).result =
      .error (.httpException 500 "ffmpeg is not available") ∧
    (transcode_to_mp3_setup ⟨fun _ _ => NetResult.ok, Option.none, false, true⟩
        "http://media.example/audio" []).sourceOpened = true ∧
    (transcode_to_mp3_setup ⟨fun _ _ => NetResult.ok, Option.none, false, true⟩
        "http://media.example/audio" []).sourceClosed = false := by
  refine ⟨rfl, rfl, rfl⟩

/-
Selection lemmas for the resolver claims.
-/

/-- A candidate list whose single entry is a dict is selected directly. -/
theorem select_of_single_dict (info : PyVal) (fs : List (String × PyVal))
    (hc : rawCandidates info = .list [.dict fs]) :
    select_single_stream info = some (.dict fs) := by
  unfold select_single_stream
  rw [hc]

/-- A candidate list with two or more entries selects nothing. -/
theorem select_of_two_or_more (info : PyVal) (xs : List PyVal)
    (hc : rawCandidates info = .list xs) (hlen : 2 ≤ xs.length) :
    select_single_stream info = Option.none := by
  cases xs with
  | nil => simp at hlen
  | cons a t =>
    cases t with
    | nil => simp at hlen
    | cons b r =>
      unfold select_single_stream
      rw [hc]

/-- Without a non-empty candidate list and without a string top-level url
the selection helper returns nothing. -/
theorem select_eq_none_of_no_candidates (info : PyVal)
    (hc : hasCandidates info = false) (hu : topUrlIsStr info = false) :
    select_single_stream info = Option.none := by
  unfold hasCandidates at hc
  unfold topUrlIsStr at hu
  unfold select_single_stream
  have hurl : (match pyGet info "url" with
      | PyVal.str _ => some info
      | _ => Option.none) = Option.none := by
    cases hp : pyGet info "url" <;> rw [hp] at hu
    simp_all
  cases hr : rawCandidates info
  case list xs =>
    rw [hr] at hc
    cases xs with
    | nil => exact hurl
    | cons a t => exact Bool.noConfusion hc
  all_goals exact hurl

/-
C2 — a single candidate is returned without a second call.
-/

/-- C2 counterexample: a response whose candidate list has exactly one
entry that is not a dict (here the string "x") makes selection fail, so a
second service call with the fallback selector is performed and the
descriptor is not that entry — the claim promises no second call for every
one-entry candidate list. -/
theorem c2_counterexample :
    rawCandidates (.dict [("requested_downloads", .list [.str "x"]), ("url", .str "http://u")]) =
      .list [.str "x"] ∧
    (extract_stream_info
        (fun n _ => if n == 0
          then .ok (.dict [("requested_downloads", .list [.str "x"]), ("url", .str "http://u")])
          else .ok (.dict [("url", .str "http://u2")]))
        "a" (some "b")).2 = ["a", "b"] ∧
    (extract_stream_info
        (fun n _ => if n == 0
          then .ok (.dict [("requested_downloads", .list [.str "x"]), ("url", .str "http://u")])
          else .ok (.dict [("url", .str "http://u2")]))
        "a" (some "b")).1 =
      .ok (.dict [("url", .str "http://u2")], .dict [("url", .str "http://u2")]) := by
  refine ⟨rfl, rfl, rfl⟩

/-- C2 (amended): for every metadata-service response whose candidate
list has exactly one entry and that entry is a dict, resolution returns
that entry as the descriptor and performs no second service call, even
when a fallback selector was supplied. -/
theorem c2_single_candidate (svc : Nat → String → YdlResult) (sel : String)
    (fb : Option String) (info : PyVal) (fs : List (String × PyVal))
    (h : svc 0 sel = .ok info)
    (hc : rawCandidates info = .list [.dict fs]) :
    extract_stream_info svc sel fb = (.ok (info, .dict fs), [sel]) := by
  simp only [extract_stream_info, h, select_of_single_dict info fs hc]

/-- C2 witness. -/
theorem c2_single_candidate_witness :
    (fun (_ : Nat) (_ : String) => YdlResult.ok
        (.dict [("requested_downloads", .list [.dict [("url", .str "http://final")]])]))
      0 "a" =
      .ok (.dict [("requested_downloads", .list [.dict [("url", .str "http://final")]])]) ∧
    extract_stream_info
        (fun _ _ => .ok (.dict [("requested_downloads", .list [.dict [("url", .str "http://final")]])]))
        "a" (some "b") =
      (.ok (.dict [("requested_downloads", .list [.dict [("url", .str "http://final")]])],
        .dict [("url", .str "http://final")]), ["a"]) := by
  refine ⟨rfl, ?_⟩
  exact c2_single_candidate _ "a" (some "b") _ _ rfl rfl

/-
C3 — exactly one fallback call, at most two calls in total.
-/

/-- C3: when the primary response's candidate list has two or more
entries and a fallback selector was supplied, the service is invoked
exactly once more, with the fallback selector, and selection is repeated
once on the second response; and for every resolution whatsoever the
service is invoked at most twice. -/
theorem c3_single_fallback_call (svc : Nat → String → YdlResult) (sel f : String)
    (info : PyVal) (xs : List PyVal)
    (h : svc 0 sel = .ok info)
    (hc : rawCandidates info = .list xs) (hlen : 2 ≤ xs.length) :
    (extract_stream_info svc sel (some f)).2 = [sel, f] ∧
    (∀ info2, svc 1 f = .ok info2 →
      (extract_stream_info svc sel (some f)).1 =
        (match select_single_stream info2 with
         | some stream => .ok (info2, stream)
         | Option.none =>
           .error (.httpException 500 "Unable to identify a direct media stream"))) ∧
    ∀ (svc2 : Nat → String → YdlResult) (sel2 : String) (fb2 : Option String),
      ((extract_stream_info svc2 sel2 fb2).2).length ≤ 2 := by
  have hnone := select_of_two_or_more info xs hc hlen
  refine ⟨?_, ?_, ?_⟩
  · simp only [extract_stream_info, h, hnone]
    split
    any_goals rfl
    split <;> rfl
  · intro info2 h2
    simp only [extract_stream_info, h, hnone, h2]
    cases select_single_stream info2 <;> rfl
  · intro svc2 sel2 fb2
    unfold extract_stream_info
    repeat' split
    all_goals simp

/-- C3 witness: two candidates, then a single dict candidate. -/
theorem c3_single_fallback_call_witness :
    (fun (n : Nat) (_ : String) => if n == 0
        then YdlResult.ok (.dict [("requested_formats", .list [.dict [], .dict []])])
        else YdlResult.ok (.dict [("url", .str "http://u2")]))
      0 "a" = .ok (.dict [("requested_formats", .list [.dict [], .dict []])]) ∧
    (extract_stream_info
        (fun n _ => if n == 0
          then .ok (.dict [("requested_formats", .list [.dict [], .dict []])])
          else .ok (.dict [("url", .str "http://u2")]))
        "a" (some "b")).2 = ["a", "b"] := by
  refine ⟨rfl, ?_⟩
  have h := c3_single_fallback_call
    (fun n _ => if n == 0
      then .ok (.dict [("requested_formats", .list [.dict [], .dict []])])
      else .ok (.dict [("url", .str "http://u2")]))
    "a" "b" (.dict [("requested_formats", .list [.dict [], .dict []])])
    [.dict [], .dict []] rfl rfl (by simp)
  exact h.1

/-
C4 — error mapping of the two service invocations.
-/

/-- C4 counterexample: when the fallback invocation fails with the
service's domain error, the failure escapes unhandled instead of being
mapped to a client-facing bad-request failure carrying the message — the
try/except in main.py lines 267-274 wraps only the primary call, while
the fallback call at lines 278-279 has no handler. -/
theorem c4_counterexample :
    (extract_stream_info
        (fun n _ => if n == 0
          then .ok (.dict [("requested_formats", .list [.dict [], .dict []])])
          else .downloadError "boom")
        "a" (some "b")).1 = .error (.unhandledDownloadError "boom") ∧
    (extract_stream_info
        (fun n _ => if n == 0
          then .ok (.dict [("requested_formats", .list [.dict [], .dict []])])
          else .downloadError "boom")
        "a" (some "b")).1 ≠ .error (.httpException 400 "boom") := by
  have h1 : (extract_stream_info
      (fun n _ => if n == 0
        then .ok (.dict [("requested_formats", .list [.dict [], .dict []])])
        else .downloadError "boom")
      "a" (some "b")).1 = .error (.unhandledDownloadError "boom") := rfl
  refine ⟨h1, ?_⟩
  rw [h1]
  intro hcontra
  exact absurd (Except.error.inj hcontra) (by simp)

/-- C4 (amended): a domain error of the primary invocation is mapped to
HTTPException 400 carrying the stripped service message (or a default when
the message strips to nothing) and any other primary failure to the
generic HTTPException 500; a failure of the fallback invocation, domain or
not, escapes unhandled instead of being mapped. -/
theorem c4_error_mapping (svc : Nat → String → YdlResult) (sel : String)
    (fb : Option String) (msg : String) :
    (svc 0 sel = .downloadError msg →
      extract_stream_info svc sel fb =
        (.error (.httpException 400 (strOrDefault (pyStripStr msg) "Unable to resolve media stream")),
         [sel])) ∧
    (svc 0 sel = .otherError →
      extract_stream_info svc sel fb =
        (.error (.httpException 500 "Failed to resolve media stream"), [sel])) ∧
    (∀ info f, svc 0 sel = .ok info → select_single_stream info = Option.none →
      fb = some f → svc 1 f = .downloadError msg →
      extract_stream_info svc sel fb = (.error (.unhandledDownloadError msg), [sel, f])) ∧
    (∀ info f, svc 0 sel = .ok info → select_single_stream info = Option.none →
      fb = some f → svc 1 f = .otherError →
      extract_stream_info svc sel fb = (.error .unhandledOther, [sel, f])) := by
  refine ⟨?_, ?_, ?_, ?_⟩
  · intro h; simp only [extract_stream_info, h]
  · intro h; simp only [extract_stream_info, h]
  · intro info f h hsel hfb h2
    subst hfb
    simp only [extract_stream_info, h, hsel, h2]
  · intro info f h hsel hfb h2
    subst hfb
    simp only [extract_stream_info, h, hsel, h2]

/-- C4 witness: with whitespace around the message, the primary mapping
strips it; the fallback domain error escapes unmapped. -/
theorem c4_error_mapping_witness :
    (fun (_ : Nat) (_ : String) => YdlResult.downloadError " boom \n") 0 "a" =
      .downloadError " boom \n" ∧
    extract_stream_info (fun _ _ => .downloadError " boom \n") "a" Option.none =
      (.error (.httpException 400 "boom"), ["a"]) ∧
    extract_stream_info
        (fun n _ => if n == 0
          then .ok (.dict [("requested_formats", .list [.dict [], .dict []])])
          else .downloadError "boom")
        "a" (some "b") = (.error (.unhandledDownloadError "boom"), ["a", "b"]) := by
  refine ⟨rfl, ?_, ?_⟩
  · exact (c4_error_mapping (fun _ _ => .downloadError " boom \n") "a" Option.none " boom \n").1 rfl
  · exact (c4_error_mapping
        (fun n _ => if n == 0
          then .ok (.dict [("requested_formats", .list [.dict [], .dict []])])
          else .downloadError "boom")
        "a" (some "b") "boom").2.2.1
      (.dict [("requested_formats", .list [.dict [], .dict []])]) "b" rfl rfl rfl rfl

/-
C5 — zero candidates and no usable top-level URL.
-/

/-- C5: when the primary response has no candidate entry and no string
top-level url, and the fallback response, if a fallback selector was
supplied, has neither as well, resolution fails with the StreamUnavailable
server error HTTPException 500 "Unable to identify a direct media stream"
rather than returning a descriptor. -/
theorem c5_stream_unavailable (svc : Nat → String → YdlResult) (sel : String)
    (fb : Option String) (info0 : PyVal)
    (h0 : svc 0 sel = .ok info0)
    (hc0 : hasCandidates info0 = false) (hu0 : topUrlIsStr info0 = false)
    (hfb : ∀ f, fb = some f → ∃ info1, svc 1 f = .ok info1 ∧
      hasCandidates info1 = false ∧ topUrlIsStr info1 = false) :
    (extract_stream_info svc sel fb).1 =
      .error (.httpException 500 "Unable to identify a direct media stream") := by
  have hn0 := select_eq_none_of_no_candidates info0 hc0 hu0
  cases fb with
  | none => simp only [extract_stream_info, h0, hn0]
  | some f =>
    obtain ⟨info1, h1, hc1, hu1⟩ := hfb f rfl
    have hn1 := select_eq_none_of_no_candidates info1 hc1 hu1
    simp only [extract_stream_info, h0, hn0, h1, hn1]

/-- C5 witness: both responses are empty info objects. -/
theorem c5_stream_unavailable_witness :
    (fun (_ : Nat) (_ : String) => YdlResult.ok (PyVal.dict [])) 0 "a" = .ok (.dict []) ∧
    hasCandidates (.dict []) = false ∧ topUrlIsStr (.dict []) = false ∧
    (extract_stream_info (fun _ _ => .ok (.dict [])) "a" (some "b")).1 =
      .error (.httpException 500 "Unable to identify a direct media stream") := by
  refine ⟨rfl, rfl, rfl, ?_⟩
  exact c5_stream_unavailable (fun _ _ => .ok (.dict [])) "a" (some "b") (.dict [])
    rfl rfl rfl (fun f _ => ⟨.dict [], rfl, rfl, rfl⟩)

/-
C7 — non-zero subprocess exit.
-/

/-- C7: on a run whose subprocess exits non-zero, the iterator's trace
yields every produced chunk first (nothing lost, nothing duplicated),
then joins the feeder, waits for the process, raises a RuntimeError whose
message is the stripped diagnostic text or "ffmpeg exited with code N"
when the stripped text is empty, and closes the output and diagnostic
handles exactly once each. -/
theorem c7_nonzero_exit (p : ProcObservation) (h : p.returncode ≠ 0) :
    transcode_iterator_events p =
      (p.stdoutChunks.map TEvent.yields) ++
        [TEvent.joinFeeder, TEvent.waitProcess,
         TEvent.raises (.runtimeError (strOrDefault (pyStripStr p.stderrText)
            ("ffmpeg exited with code " ++ toString p.returncode))),
         TEvent.closeStdout, TEvent.closeStderr] ∧
    (transcode_iterator_events p).filterMap
        (fun e => match e with | TEvent.yields c => some c | _ => Option.none) =
      p.stdoutChunks ∧
    (transcode_iterator_events p).count TEvent.closeStdout = 1 ∧
    (transcode_iterator_events p).count TEvent.closeStderr = 1 := by
  have hne : (p.returncode != 0) = true := by simpa using h
  have htrace : transcode_iterator_events p =
      (p.stdoutChunks.map TEvent.yields) ++
        [TEvent.joinFeeder, TEvent.waitProcess,
         TEvent.raises (.runtimeError (strOrDefault (pyStripStr p.stderrText)
            ("ffmpeg exited with code " ++ toString p.returncode))),
         TEvent.closeStdout, TEvent.closeStderr] := by
    simp [transcode_iterator_events, hne]
  refine ⟨htrace, ?_, ?_, ?_⟩
  · rw [htrace]
    rw [List.filterMap_append]
    have hchunks : (p.stdoutChunks.map TEvent.yields).filterMap
        (fun e => match e with | TEvent.yields c => some c | _ => Option.none) =
        p.stdoutChunks := by
      induction p.stdoutChunks with
      | nil => rfl
      | cons c cs ih => simpa using ih
    rw [hchunks]
    show p.stdoutChunks ++ ([] : List (List Nat)) = p.stdoutChunks
    exact List.append_nil _
  · rw [htrace, List.count_append]
    have hz : (p.stdoutChunks.map TEvent.yields).count TEvent.closeStdout = 0 := by
      rw [List.count_eq_zero]
      intro hmem
      obtain ⟨c, _, habs⟩ := List.mem_map.mp hmem
      exact TEvent.noConfusion habs
    rw [hz]
    rfl
  · rw [htrace, List.count_append]
    have hz : (p.stdoutChunks.map TEvent.yields).count TEvent.closeStderr = 0 := by
      rw [List.count_eq_zero]
      intro hmem
      obtain ⟨c, _, habs⟩ := List.mem_map.mp hmem
      exact TEvent.noConfusion habs
    rw [hz]
    rfl

/-- C7 witness: two chunks, one with diagnostic text around whitespace,
exit code 1. -/
theorem c7_nonzero_exit_witness :
    (ProcObservation.mk [[1, 2], [3]] "  boom\n" 1).returncode ≠ 0 ∧
    transcode_iterator_events (ProcObservation.mk [[1, 2], [3]] "  boom\n" 1) =
      [TEvent.yields [1, 2], TEvent.yields [3], TEvent.joinFeeder, TEvent.waitProcess,
       TEvent.raises (.runtimeError "boom"), TEvent.closeStdout, TEvent.closeStderr] := by
  have h := c7_nonzero_exit (ProcObservation.mk [[1, 2], [3]] "  boom\n" 1) (by decide)
  exact ⟨by decide, by rw [h.1]; rfl⟩

/-
C9 — header precedence.
-/

/-- C9: for both prepared-stream kinds the headers used for the media
request come from the descriptor-level http_headers mapping when the
descriptor carries one, otherwise from the info-level http_headers mapping
when the info object carries one, otherwise they are the empty mapping;
and a string-valued mapping passes through normalization unchanged. -/
theorem c9_header_precedence (info stream : PyVal) :
    (∀ fs, pyGet stream "http_headers" = .dict fs →
      prepare_video_stream_headers info stream = normalize_headers (some (.dict fs)) ∧
      prepare_mp3_stream_headers info stream = normalize_headers (some (.dict fs))) ∧
    (isDictVal (pyGet stream "http_headers") = false →
      ∀ fs, pyGet info "http_headers" = .dict fs →
        prepare_video_stream_headers info stream = normalize_headers (some (.dict fs)) ∧
        prepare_mp3_stream_headers info stream = normalize_headers (some (.dict fs))) ∧
    (isDictVal (pyGet stream "http_headers") = false →
      isDictVal (pyGet info "http_headers") = false →
      prepare_video_stream_headers info stream = [] ∧
      prepare_mp3_stream_headers info stream = []) ∧
    (∀ hs : List (String × String),
      normalize_headers (some (.dict (hs.map fun kv => (kv.1, PyVal.str kv.2)))) = hs) := by
  have hvm : ∀ i s : PyVal,
      prepare_video_stream_headers i s = prepare_mp3_stream_headers i s := fun _ _ => rfl
  have hdesc : ∀ fs, pyGet stream "http_headers" = .dict fs →
      prepare_video_stream_headers info stream = normalize_headers (some (.dict fs)) := by
    intro fs hfs
    unfold prepare_video_stream_headers
    rw [hfs]
  have hinfo : isDictVal (pyGet stream "http_headers") = false →
      ∀ fs, pyGet info "http_headers" = .dict fs →
        prepare_video_stream_headers info stream = normalize_headers (some (.dict fs)) := by
    intro hnd fs hfs
    unfold isDictVal at hnd
    unfold prepare_video_stream_headers
    cases hsv : pyGet stream "http_headers" <;> rw [hsv] at hnd
    case dict => exact Bool.noConfusion hnd
    all_goals rw [hfs]
  have hnone : isDictVal (pyGet stream "http_headers") = false →
      isDictVal (pyGet info "http_headers") = false →
      prepare_video_stream_headers info stream = [] := by
    intro hnd hni
    unfold isDictVal at hnd hni
    unfold prepare_video_stream_headers
    cases hsv : pyGet stream "http_headers" <;> rw [hsv] at hnd
    case dict => exact Bool.noConfusion hnd
    all_goals
      cases hiv : pyGet info "http_headers" <;> rw [hiv] at hni
      case dict => exact Bool.noConfusion hni
      all_goals rfl
  have haux : ∀ hs : List (String × String),
      (hs.map fun kv => (kv.1, PyVal.str kv.2)).map (fun kv => (kv.1, pyStr kv.2)) = hs := by
    intro hs
    induction hs with
    | nil => rfl
    | cons kv rest ih =>
      simp only [List.map_cons]
      rw [ih]
      rfl
  refine ⟨?_, ?_, ?_, ?_⟩
  · intro fs hfs
    exact ⟨hdesc fs hfs, (hvm info stream) ▸ hdesc fs hfs⟩
  · intro hnd fs hfs
    exact ⟨hinfo hnd fs hfs, (hvm info stream) ▸ hinfo hnd fs hfs⟩
  · intro hnd hni
    exact ⟨hnone hnd hni, (hvm info stream) ▸ hnone hnd hni⟩
  · intro hs
    cases hs with
    | nil => rfl
    | cons kv rest =>
      show ((kv :: rest).map fun p => (p.1, PyVal.str p.2)).map (fun p => (p.1, pyStr p.2)) =
        kv :: rest
      exact haux (kv :: rest)

/-- C9 witness: descriptor-level headers win over info-level headers. -/
theorem c9_header_precedence_witness :
    pyGet (.dict [("url", .str "https://media.example/video.mp4"),
        ("http_headers", .dict [("User-Agent", .str "abc")])]) "http_headers" =
      .dict [("User-Agent", .str "abc")] ∧
    prepare_video_stream_headers (.dict [("http_headers", .dict [("X-Test", .str "info")])])
        (.dict [("url", .str "https://media.example/video.mp4"),
          ("http_headers", .dict [("User-Agent", .str "abc")])]) =
      [("User-Agent", "abc")] ∧
    prepare_mp3_stream_headers (.dict [("http_headers", .dict [("X-Test", .str "info")])])
        (.dict [("url", .str "https://media.example/video.mp4"),
          ("http_headers", .dict [("User-Agent", .str "abc")])]) =
      [("User-Agent", "abc")] := by
  have h := (c9_header_precedence (.dict [("http_headers", .dict [("X-Test", .str "info")])])
      (.dict [("url", .str "https://media.example/video.mp4"),
        ("http_headers", .dict [("User-Agent", .str "abc")])])).1
    [("User-Agent", .str "abc")] rfl
  exact ⟨rfl, h.1, h.2⟩

/-
C10 — candidate-source precedence.
-/

/-- A value is absent (None) or a list precisely when isNullOrList. -/
theorem isNullOrList_iff (v : PyVal) :
    isNullOrList v = true ↔ v = .null ∨ ∃ xs, v = .list xs := by
  cases v <;> simp [isNullOrList]

/-- C10 counterexample: with a truthy non-list requested_downloads entry
(here the string "x"), the Python or-chain keeps that value, the
isinstance check on it fails, and selection falls through to the
top-level info object even though requested_formats holds a non-empty
list — the claim allows the top-level object to be considered only when
both fields are absent or empty. -/
theorem c10_counterexample :
    pyGet (.dict [("requested_downloads", .str "x"),
        ("requested_formats", .list [.dict [], .dict []]), ("url", .str "http://u")])
      "requested_formats" = .list [.dict [], .dict []] ∧
    usesTopLevel (.dict [("requested_downloads", .str "x"),
        ("requested_formats", .list [.dict [], .dict []]), ("url", .str "http://u")]) = true ∧
    select_single_stream (.dict [("requested_downloads", .str "x"),
        ("requested_formats", .list [.dict [], .dict []]), ("url", .str "http://u")]) =
      some (.dict [("requested_downloads", .str "x"),
        ("requested_formats", .list [.dict [], .dict []]), ("url", .str "http://u")]) := by
  refine ⟨rfl, rfl, rfl⟩

/-- C10 (amended): when each of the two candidate fields is absent or a
list, a non-empty requested_downloads list takes precedence over
requested_formats; when requested_downloads is absent or empty,
requested_formats is consulted instead; and the top-level info object is
considered exactly when both fields are absent or empty. -/
theorem c10_candidate_precedence (info : PyVal)
    (hd : isNullOrList (pyGet info "requested_downloads") = true)
    (hf : isNullOrList (pyGet info "requested_formats") = true) :
    (∀ xs, pyGet info "requested_downloads" = .list xs → xs ≠ [] →
      rawCandidates info = .list xs) ∧
    ((pyGet info "requested_downloads" = .null ∨ pyGet info "requested_downloads" = .list []) →
      rawCandidates info = pyGet info "requested_formats") ∧
    (usesTopLevel info = true ↔
      ((pyGet info "requested_downloads" = .null ∨ pyGet info "requested_downloads" = .list []) ∧
       (pyGet info "requested_formats" = .null ∨ pyGet info "requested_formats" = .list []))) := by
  refine ⟨?_, ?_, ?_⟩
  · intro xs hxs hne
    unfold rawCandidates
    rw [hxs]
    simp [pyTruthy, hne]
  · intro hcase
    unfold rawCandidates
    rcases hcase with h1 | h1 <;> rw [h1]
    all_goals rfl
  · unfold usesTopLevel rawCandidates
    rcases (isNullOrList_iff _).mp hd with h1 | ⟨xs, h1⟩
    · rcases (isNullOrList_iff _).mp hf with h2 | ⟨ys, h2⟩
      · rw [h1, h2]
        simp [pyTruthy]
      · rw [h1, h2]
        cases ys <;> simp [pyTruthy]
    · rcases (isNullOrList_iff _).mp hf with h2 | ⟨ys, h2⟩
      · rw [h1, h2]
        cases xs <;> simp [pyTruthy]
      · rw [h1, h2]
        cases xs with
        | nil => cases ys <;> simp [pyTruthy]
        | cons a t => simp [pyTruthy]

/-- C10 witness: empty requested_downloads defers to requested_formats. -/
theorem c10_candidate_precedence_witness :
    isNullOrList (pyGet (.dict [("requested_downloads", .list []),
        ("requested_formats", .list [.dict []])]) "requested_downloads") = true ∧
    rawCandidates (.dict [("requested_downloads", .list []),
        ("requested_formats", .list [.dict []])]) = .list [.dict []] ∧
    usesTopLevel (.dict [("requested_downloads", .list []),
        ("requested_formats", .list [.dict []])]) = false := by
  have h := c10_candidate_precedence (.dict [("requested_downloads", .list []),
      ("requested_formats", .list [.dict []])]) rfl rfl
  exact ⟨rfl, (h.2.1 (Or.inr rfl)).trans rfl, rfl⟩

end Dreamy
